import Mathlib

/-!
Shallow embedding of two modules of the Agent-S backend:

* `backend/app/nodes/image.py` — selection of the image to attach to a
  published article, from the images scraped alongside it;
* `backend/mcp_publish/client.py` — the MCP publish client shim
  (JSON-RPC handshake, session header propagation, tool calls).

Modelling conventions:

* Python strings are modelled by `String`, with all operations carried out
  on the character list (`String.data`) so that every definition reduces in
  the kernel; `lower`/`isdigit`/`strip` use their ASCII meaning.
* `urllib.parse.urlparse` is modelled for exactly the components this code
  reads (`scheme`, `netloc`, `path`), including the `ValueError` CPython
  raises on a netloc with unbalanced square brackets.
* External collaborators — the downloader `_download_bytes`, `json.loads`
  and `json.dumps`, `uuid.uuid4`, the HTTP transport and the in-process
  tool implementations — are oracle parameters.
* Machine-level concerns (bytes) use `Nat` values `< 256`; `base64` is the
  real RFC 4648 encoder.
-/

namespace AgentS

/-! ### Python string primitives -/

/-- Python truthiness of an optional string (`None` and `""` are falsy). -/
def truthyS : Option String → Bool
  | none => false
  | some s => !s.data.isEmpty

/-- Python `a or b` on optional strings: the first operand wins when it is
truthy (a non-empty string); otherwise the second is returned. -/
def pyOrS (a b : Option String) : Option String :=
  match a with
  | some s => if s.data.isEmpty then b else some s
  | none => b

/-- Python string equality `a == b`. -/
def strEq (a b : String) : Bool := a.data == b.data

/-- Python `s.strip()` (ASCII whitespace model). -/
def pyStrip (s : String) : String :=
  ⟨((s.data.dropWhile Char.isWhitespace).reverse.dropWhile Char.isWhitespace).reverse⟩

/-- Python `s.lower()` (ASCII model). -/
def pyLower (s : String) : String := ⟨s.data.map Char.toLower⟩

/-- Python `s.isdigit()` (ASCII model): non-empty and all digits. -/
def pyIsDigit (s : String) : Bool := !s.data.isEmpty && s.data.all Char.isDigit

/-- Value of `int(s)` on a string of decimal digits. -/
def digitsVal (s : String) : Nat :=
  s.data.foldl (fun acc c => acc * 10 + (c.toNat - 48)) 0

/-! ### `urllib.parse.urlparse`, restricted to the fields this code reads -/

/-- Components of a parsed URL, as read by this code
(the `scheme`, `netloc` and `path` fields of the `urlparse` result). -/
structure UrlParts where
  scheme : String
  netloc : String
  path : String
deriving Repr, DecidableEq

/-- Characters CPython allows in a URL scheme. -/
def isSchemeChar (c : Char) : Bool :=
  c.isAlpha || c.isDigit || c == '+' || c == '-' || c == '.'

/-- Split a leading `scheme:` off a URL, as CPython `urlsplit` does: the
part before the first `:` counts as a scheme when it is non-empty, starts
with an ASCII letter and contains only scheme characters; the scheme is
lower-cased.  Otherwise the URL is left untouched. -/
def splitScheme (cs : List Char) : List Char × List Char :=
  let pre := cs.takeWhile (fun c => !(c == ':'))
  match cs.dropWhile (fun c => !(c == ':')) with
  | ':' :: r =>
    if !pre.isEmpty && (pre.headD 'a').isAlpha && pre.all isSchemeChar then
      (pre.map Char.toLower, r)
    else ([], cs)
  | _ => ([], cs)

/-- Model of `urllib.parse.urlparse`: after the optional scheme, a `//`
introduces the netloc, which extends to the next `/`, `?` or `#`; the path
is the remainder up to the next `?` or `#`.  Returns `none` for the
`ValueError` raised on a netloc with unbalanced square brackets. -/
def urlparse? (url : String) : Option UrlParts :=
  let (scheme, rest) := splitScheme url.data
  let (netloc, rest2) :=
    match rest with
    | '/' :: '/' :: r =>
      (r.takeWhile (fun c => !(c == '/') && !(c == '?') && !(c == '#')),
       r.dropWhile (fun c => !(c == '/') && !(c == '?') && !(c == '#')))
    | _ => ([], rest)
  if (netloc.contains '[' && !netloc.contains ']') ||
     (netloc.contains ']' && !netloc.contains '[') then none
  else
    some ⟨⟨scheme⟩, ⟨netloc⟩, ⟨rest2.takeWhile (fun c => !(c == '?') && !(c == '#'))⟩⟩

/-- Python's `hostname` attribute of a parsed URL's netloc: the bracketed
IPv6 literal without its brackets, otherwise everything before the port
separator; lower-cased.  (Used only to state which host a URL denotes.) -/
def pyHostname (netloc : String) : String :=
  match netloc.data with
  | '[' :: rest => pyLower ⟨rest.takeWhile (fun c => !(c == ']'))⟩
  | cs => pyLower ⟨cs.takeWhile (fun c => !(c == ':'))⟩

/-! ### `backend/app/nodes/image.py` -/

/-- Embeds `_same_site`: both URLs parse with non-empty netlocs that agree
case-insensitively; a `urlparse` failure yields `False`. -/
def _same_site (article_url image_url : String) : Bool :=
  match urlparse? article_url, urlparse? image_url with
  | some a, some i =>
    !a.netloc.data.isEmpty && !i.netloc.data.isEmpty &&
      strEq (pyLower a.netloc) (pyLower i.netloc)
  | _, _ => false

/-- Embeds `_is_local_or_unusable`: blank URLs, URLs whose lower-cased
netloc up to the first `:` is `localhost`, `127.0.0.1` or `::1`, and URLs
on which `urlparse` raises. -/
def _is_local_or_unusable (url : String) : Bool :=
  if url.data.isEmpty || (pyStrip url).data.isEmpty then true
  else
    match urlparse? (pyStrip url) with
    | none => true
    | some p =>
      let netloc : String := ⟨(pyLower p.netloc).data.takeWhile (fun c => !(c == ':'))⟩
      strEq netloc "localhost" || strEq netloc "127.0.0.1" || strEq netloc "::1"

/-- The keys of an image-candidate dict that `image.py` reads.  A missing
key is `none`; `width`/`height` values are modelled by their `str()` form,
so the Python ints 0, 5, … appear as `"0"`, `"5"`, …. -/
structure ImageDict where
  src : Option String := none
  url : Option String := none
  alt : Option String := none
  caption : Option String := none
  width : Option String := none
  height : Option String := none
deriving Repr, DecidableEq

/-- The `score` closure inside `_ordered_candidates`:
`(same_site, width * height)`, where a missing or non-digit dimension
contributes 0. -/
def score (article_url : String) (im : ImageDict) : Nat × Nat :=
  let src := im.src.getD ""
  let same := if _same_site article_url src then 1 else 0
  let w := match im.width with
    | some v => if pyIsDigit v then digitsVal v else 0
    | none => 0
  let h := match im.height with
    | some v => if pyIsDigit v then digitsVal v else 0
    | none => 0
  (same, w * h)

/-- Descending comparison on score keys: Python's
`sorted(images, key=score, reverse=True)` places `a` before `b` exactly
when `score a` is lexicographically at least `score b`. -/
def keyGE (x y : Nat × Nat) : Bool :=
  decide (y.1 < x.1) || (decide (x.1 = y.1) && decide (y.2 ≤ x.2))

/-- The `og` scan of `_ordered_candidates`: locate the first candidate
whose `src` equals `og` and return it with the remaining candidates in
their original order (`[im] + [i for i in images if i is not im]`). -/
def ogSplit (og : String) : List ImageDict → Option (ImageDict × List ImageDict)
  | [] => none
  | im :: rest =>
    if strEq (im.src.getD "") og then some (im, rest)
    else
      match ogSplit og rest with
      | some (m, r) => some (m, im :: r)
      | none => none

/-- Embeds `_ordered_candidates`: `og:image` match first, otherwise a
stable descending sort by `(same_site, area)`. -/
def _ordered_candidates (images : List ImageDict) (article_url : String) (og : String) :
    List ImageDict :=
  if images.isEmpty then []
  else if !og.data.isEmpty then
    match ogSplit og images with
    | some (m, r) => m :: r
    | none => images.mergeSort (fun a b => keyGE (score article_url a) (score article_url b))
  else images.mergeSort (fun a b => keyGE (score article_url a) (score article_url b))

/-- An entry of `scraped_content["images"]`: a dict, a bare string, or a
value of any other type (silently skipped by normalization). -/
inductive RawImage where
  | dict (d : ImageDict)
  | str (s : String)
  | other
deriving Repr

/-- The normalization loop of `select_image`: structured entries need a
truthy `src` or `url`; bare strings need non-blank content. -/
def normalizeImages : List RawImage → List ImageDict
  | [] => []
  | .dict d :: rest =>
    if truthyS (pyOrS d.src d.url) then
      { src := pyOrS d.src d.url,
        alt := some ((pyOrS d.alt (pyOrS d.caption (some ""))).getD ""),
        width := d.width, height := d.height } :: normalizeImages rest
    else normalizeImages rest
  | .str s :: rest =>
    if !(pyStrip s).data.isEmpty then
      { src := some (pyStrip s), alt := some "" } :: normalizeImages rest
    else normalizeImages rest
  | .other :: rest => normalizeImages rest

/-- The metadata keys read by `select_image`. -/
structure PageMeta where
  og_image : Option String := none
  twitter_image : Option String := none
deriving Repr

/-- The fields of `scraped_content` read by `select_image`. -/
structure Scraped where
  url : Option String := none
  images : List RawImage := []
  metadata : Option PageMeta := none
deriving Repr

/-- The chosen-image record written to `state["image_metadata"]`. -/
structure ImageMeta where
  image_url : String
  caption : String
  source : String
  image_base64 : String
deriving Repr, DecidableEq

/-- The pipeline-state keys `select_image` reads or writes, plus `extra`
standing for every other key of the state dict.  `image_metadata = none`
models the empty mapping. -/
structure AgentState where
  terminated : Bool := false
  url : Option String := none
  scraped_content : Option Scraped := none
  image_metadata : Option ImageMeta := none
  updated_at : Option String := none
  extra : List (String × String) := []
deriving Repr

/-- RFC 4648 base64 alphabet. -/
def b64Char (n : Nat) : Char :=
  "ABCDEFGHIJKLMNOPQRSTUVWXYZabcdefghijklmnopqrstuvwxyz0123456789+/".data.getD n 'A'

/-- Chunked RFC 4648 base64 encoding of a byte list. -/
def b64Chunks : List Nat → List Char
  | [] => []
  | [a] => [b64Char (a / 4), b64Char (a % 4 * 16), '=', '=']
  | [a, b] => [b64Char (a / 4), b64Char (a % 4 * 16 + b / 16), b64Char (b % 16 * 4), '=']
  | a :: b :: c :: rest =>
    b64Char (a / 4) :: b64Char (a % 4 * 16 + b / 16) ::
      b64Char (b % 16 * 4 + c / 64) :: b64Char (c % 64) :: b64Chunks rest

/-- `base64.b64encode(blob).decode("ascii")`. -/
def base64Encode (bs : List Nat) : String := ⟨b64Chunks bs⟩

/-- Oracle for the external downloader `_download_bytes(src, referer=…)`:
an `Except` failure models a raised exception, `ok []` an empty blob. -/
abbrev Downloader := String → Option String → Except Unit (List Nat)

/-- `scraped = state.get("scraped_content") or {}`. -/
def scrapedOf (state : AgentState) : Scraped := state.scraped_content.getD {}

/-- `article_url = state.get("url") or scraped.get("url") or ""`. -/
def articleUrlOf (state : AgentState) : String :=
  (pyOrS state.url (pyOrS (scrapedOf state).url (some ""))).getD ""

/-- `og = (meta.get("og:image") or meta.get("twitter:image") or "").strip()`. -/
def ogOf (state : AgentState) : String :=
  let meta := (scrapedOf state).metadata.getD {}
  pyStrip ((pyOrS meta.og_image (pyOrS meta.twitter_image (some ""))).getD "")

/-- `referer = article_url.strip() or None`. -/
def refererOf (state : AgentState) : Option String :=
  let t := pyStrip (articleUrlOf state)
  if t.data.isEmpty then none else some t

/-- The candidate loop of `select_image`: skip unusable URLs, try the
downloader (exceptions and empty blobs mean "next candidate"), stop at the
first non-empty blob.  The second component records every downloader
invocation `(src, referer)` in order. -/
def tryCandidates (dl : Downloader) (referer : Option String) :
    List ImageDict → Option ImageMeta × List (String × Option String)
  | [] => (none, [])
  | chosen :: rest =>
    let src := (pyOrS chosen.src (pyOrS chosen.url (some ""))).getD ""
    if _is_local_or_unusable src then tryCandidates dl referer rest
    else
      let caption := (pyOrS chosen.alt (pyOrS chosen.caption (some ""))).getD ""
      match dl src referer with
      | .error _ =>
        let r := tryCandidates dl referer rest
        (r.1, (src, referer) :: r.2)
      | .ok blob =>
        if blob.isEmpty then
          let r := tryCandidates dl referer rest
          (r.1, (src, referer) :: r.2)
        else
          (some { image_url := src, caption := caption, source := "firecrawl",
                  image_base64 := base64Encode blob }, [(src, referer)])

/-- Embeds `select_image`.  The external downloader and the `now_iso()`
timestamp are parameters; the second result component is the list of
downloader invocations made during the call. -/
def select_image (dl : Downloader) (now : String) (state : AgentState) :
    AgentState × List (String × Option String) :=
  if state.terminated then (state, [])
  else
    let images := normalizeImages (scrapedOf state).images
    let candidates := _ordered_candidates images (articleUrlOf state) (ogOf state)
    let r := tryCandidates dl (refererOf state) candidates
    ({ state with image_metadata := r.1, updated_at := some now }, r.2)

/-! ### `backend/mcp_publish/client.py` -/

/-- JSON values, as passed over the MCP wire and returned by `json.loads`. -/
inductive Json where
  | null
  | bool (b : Bool)
  | num (n : Int)
  | str (s : String)
  | arr (elems : List Json)
  | obj (fields : List (String × Json))

/-- First binding of a key in a JSON object's field list (`d[k]`/`d.get(k)`
on a dict; dict keys are unique, so the first binding is the binding). -/
def jlookup (k : String) : List (String × Json) → Option Json
  | [] => none
  | (k', v) :: rest => if strEq k' k then some v else jlookup k rest

/-- Python falsiness of a JSON value. -/
def jfalsy : Json → Bool
  | .null => true
  | .bool b => !b
  | .num n => n == 0
  | .str s => s.data.isEmpty
  | .arr xs => xs.isEmpty
  | .obj kvs => kvs.isEmpty

/-- Python `x or {}`. -/
def orEmptyObj (v : Json) : Json := if jfalsy v then .obj [] else v

/-- Python `x.get(k) or []` with `x.get` already evaluated. -/
def orEmptyArr (v : Option Json) : Json :=
  match v with
  | none => .arr []
  | some x => if jfalsy x then .arr [] else x

/-- The exceptions `_call_remote_tool` can raise, distinguished by origin:
`urlNotSet` is `RuntimeError("mcp_publish_url not set")`, `valueError` the
`urlparse` failure, `httpError` the `raise_for_status()` failure,
`jsonDecodeError` a response body that is not JSON, `typeError` a
duck-typed access on a value of the wrong shape, `rpcError` the
`RuntimeError` carrying a JSON-RPC `error`, and `noResult` the
`RuntimeError("No result in MCP response")`. -/
inductive CallError where
  | urlNotSet
  | valueError
  | httpError
  | jsonDecodeError
  | typeError
  | rpcError (m : Json)
  | noResult

/-- Substring containment over character lists (Python `sub in s`). -/
def hasSub (pat : List Char) : List Char → Bool
  | [] => pat.isEmpty
  | c :: rest => pat.isPrefixOf (c :: rest) || hasSub pat rest

/-- Python `k in v` for the membership tests this client performs:
key membership on dicts, element equality on lists, substring containment
on strings, and `TypeError` on `None`, booleans and numbers. -/
def pyIn (k : String) : Json → Except CallError Bool
  | .obj kvs => .ok (kvs.any (fun f => strEq f.1 k))
  | .arr xs => .ok (xs.any (fun x => match x with | .str s => strEq s k | _ => false))
  | .str s => .ok (hasSub k.data s.data)
  | .null => .error .typeError
  | .bool _ => .error .typeError
  | .num _ => .error .typeError

/-- Python `v.get(k)`: `none` for a missing key, `AttributeError`
(modelled `typeError`) when `v` is not a dict. -/
def pyDictGet (k : String) : Json → Except CallError (Option Json)
  | .obj kvs => .ok (jlookup k kvs)
  | _ => .error .typeError

/-- The configuration the client reads: `settings.mcp_publish_url`. -/
structure Config where
  mcp_publish_url : Option String := none

/-- The module-level session state of `mcp_publish/client.py`:
`_remote_initialized` and `_remote_session_id`. -/
structure ClientState where
  remote_initialized : Bool := false
  remote_session_id : Option String := none
deriving Repr, DecidableEq

/-- An HTTP response as this client reads it: the success flag, the
`mcp-session-id` header (one field models the case-insensitive lookup of
both spellings), and the JSON parse of the body, with `error` modelling a
body on which `resp.json()` raises. -/
structure HttpResponse where
  is_success : Bool
  session_header : Option String := none
  body : Except Unit Json := .ok .null

/-- An HTTP POST issued by the client: its JSON payload and its headers. -/
structure RequestLog where
  payload : Json
  headers : List (String × String)

/-- Embeds `_mcp_base_url`: `none` for in-process mode, otherwise the
normalized remote base URL (`/mcp` appended when the configured URL has no
path, trailing slashes stripped otherwise); a `urlparse` failure
propagates as `valueError`. -/
def _mcp_base_url (cfg : Config) : Except CallError (Option String) :=
  let url := pyStrip (cfg.mcp_publish_url.getD "")
  if url.data.isEmpty then .ok none
  else
    match urlparse? url with
    | none => .error .valueError
    | some p =>
      if p.path.data.isEmpty || strEq p.path "/" then
        .ok (some (p.scheme ++ "://" ++ p.netloc ++ "/mcp"))
      else .ok (some ⟨(url.data.reverse.dropWhile (fun c => c == '/')).reverse⟩)

/-- Python truthiness of the `_mcp_base_url` result, as tested by
`if base:` in the callers and `if not base:` in `_call_remote_tool`. -/
def baseTruthy (cfg : Config) : Bool :=
  match _mcp_base_url cfg with
  | .ok b => truthyS b
  | .error _ => false

/-- Embeds `_session_headers`: content-type and accept headers, plus the
`Mcp-Session-Id` header when a session id has been captured. -/
def _session_headers (st : ClientState) : List (String × String) :=
  [("Content-Type", "application/json"),
   ("Accept", "application/json, text/event-stream")] ++
  (match st.remote_session_id with
   | some s => if s.data.isEmpty then [] else [("Mcp-Session-Id", s)]
   | none => [])

/-- The JSON-RPC `initialize` payload sent on the first call. -/
def initPayload (id : String) : Json :=
  .obj [("jsonrpc", .str "2.0"), ("id", .str id), ("method", .str "initialize"),
        ("params", .obj [("protocolVersion", .str "2024-11-05"),
                         ("capabilities", .obj []),
                         ("clientInfo", .obj [("name", .str "AgentSocialS-backend"),
                                              ("version", .str "1.0")])])]

/-- The `notifications/initialized` notification payload (no id). -/
def initializedNotification : Json :=
  .obj [("jsonrpc", .str "2.0"), ("method", .str "notifications/initialized")]

/-- The JSON-RPC `tools/call` payload. -/
def toolsCallPayload (id name : String) (arguments : Json) : Json :=
  .obj [("jsonrpc", .str "2.0"), ("id", .str id), ("method", .str "tools/call"),
        ("params", .obj [("name", .str name), ("arguments", arguments)])]

/-- The session id captured from a successful `initialize` response:
the stripped header value when non-blank, otherwise the old value. -/
def sidUpdate (st : ClientState) (h : Option String) : Option String :=
  let s := pyStrip (h.getD "")
  if s.data.isEmpty then st.remote_session_id else some s

/-- The one-time `initialize` block of `_call_remote_tool`: skipped when
`_remote_initialized` is set; otherwise posts `initialize` and, on a
successful response with no `error` member, records the handshake, captures
the session id and posts the `initialized` notification.  Returns the new
state, the requests posted, an exception if body inspection raised, and
the number of request ids consumed. -/
def handshakeStep (world : Nat → HttpResponse) (genId : Nat → String) (st : ClientState) :
    ClientState × List RequestLog × Option CallError × Nat :=
  if st.remote_initialized then (st, [], none, 0)
  else
    let req0 : RequestLog := ⟨initPayload (genId 0), _session_headers st⟩
    let ri := world 0
    if ri.is_success then
      match ri.body with
      | .error _ => (st, [req0], some .jsonDecodeError, 1)
      | .ok body =>
        match pyIn "error" (orEmptyObj body) with
        | .error e => (st, [req0], some e, 1)
        | .ok hasErr =>
          if hasErr then (st, [req0], none, 1)
          else
            let st' : ClientState :=
              { remote_initialized := true,
                remote_session_id := sidUpdate st ri.session_header }
            (st', [req0, ⟨initializedNotification, _session_headers st'⟩], none, 1)
    else (st, [req0], none, 1)

/-- The `text_parts` comprehension over `result.content`: collect the
string-typed `"text"` fields in order; the duck-typed `c.get` on a
non-dict entry raises. -/
def textParts : List Json → Except CallError (List String)
  | [] => .ok []
  | .obj kvs :: rest =>
    match jlookup "text" kvs with
    | some (.str s) =>
      match textParts rest with
      | .ok l => .ok (s :: l)
      | .error e => .error e
    | _ => textParts rest
  | _ :: _ => .error .typeError

/-- Handling of the `tools/call` HTTP response in `_call_remote_tool`:
`raise_for_status`, the JSON-RPC `error` member, the missing/falsy
`result`, and the extraction and parse of the first text content part. -/
def handleToolResponse (jsonLoads : String → Option Json) (r : HttpResponse) :
    Except CallError Json :=
  if !r.is_success then .error .httpError
  else
    match r.body with
    | .error _ => .error .jsonDecodeError
    | .ok data =>
      match pyIn "error" data with
      | .error e => .error e
      | .ok hasErr =>
        if hasErr then
          match data with
          | .obj kvs =>
            match jlookup "error" kvs with
            | some (.obj ekvs) =>
              match jlookup "message" ekvs with
              | some m => .error (.rpcError m)
              | none => .error (.rpcError (.obj ekvs))
            | some _ => .error .typeError
            | none => .error .typeError
          | _ => .error .typeError
        else
          match pyDictGet "result" data with
          | .error e => .error e
          | .ok none => .error .noResult
          | .ok (some res) =>
            if jfalsy res then .error .noResult
            else
              match pyDictGet "content" res with
              | .error e => .error e
              | .ok copt =>
                match orEmptyArr copt with
                | .arr items =>
                  match textParts items with
                  | .error e => .error e
                  | .ok [] => .ok (.obj [])
                  | .ok (raw :: _) =>
                    match jsonLoads raw with
                    | some v => .ok v
                    | none => .ok (.obj [("error", .str raw), ("status", .str "failure")])
                | _ => .error .typeError

/-- Embeds `_call_remote_tool`.  `world n` is the response to the n-th
HTTP POST of this invocation, `genId n` the n-th `uuid.uuid4()` value, and
`jsonLoads` the external `json.loads`.  Returns the tool result (or the
raised exception), the updated session state, and the posts issued. -/
def _call_remote_tool (cfg : Config) (world : Nat → HttpResponse) (genId : Nat → String)
    (jsonLoads : String → Option Json) (st : ClientState) (name : String) (arguments : Json) :
    Except CallError Json × ClientState × List RequestLog :=
  match _mcp_base_url cfg with
  | .error e => (.error e, st, [])
  | .ok base =>
    if !truthyS base then (.error .urlNotSet, st, [])
    else
      let h := handshakeStep world genId st
      match h.2.2.1 with
      | some e => (.error e, h.1, h.2.1)
      | none =>
        let req : RequestLog := ⟨toolsCallPayload (genId h.2.2.2) name arguments,
                                 _session_headers h.1⟩
        (handleToolResponse jsonLoads (world h.2.1.length), h.1, h.2.1 ++ [req])

/-- JSON encoding of an optional integer argument. -/
def jsonOfOptInt : Option Int → Json
  | none => .null
  | some n => .num n

/-- JSON encoding of an optional string argument. -/
def jsonOfOptStr : Option String → Json
  | none => .null
  | some s => .str s

/-- Embeds `call_publish_post`.  When `_mcp_base_url` is truthy the remote
tool is called; otherwise the externally resolved in-process callable (an
oracle) is invoked directly.  `_log_mode_once` only logs and is omitted;
`json.dumps` is the oracle `jsonDumps`. -/
def call_publish_post (cfg : Config) (world : Nat → HttpResponse) (genId : Nat → String)
    (jsonLoads : String → Option Json) (jsonDumps : Json → String)
    (publishPostImpl : String → String → String → Option Int → Option String → Json → Json)
    (st : ClientState) (platform text user_id : String)
    (connection_id : Option Int) (media_id : Option String) (metadata : Option Json) :
    Except CallError Json × ClientState × List RequestLog :=
  match _mcp_base_url cfg with
  | .error e => (.error e, st, [])
  | .ok base =>
    if truthyS base then
      _call_remote_tool cfg world genId jsonLoads st "publish_post_tool"
        (.obj [("platform", .str platform), ("text", .str text),
               ("user_id", .str user_id),
               ("connection_id", jsonOfOptInt connection_id),
               ("media_id", jsonOfOptStr media_id),
               ("metadata", .str (jsonDumps (orEmptyObj (metadata.getD .null))))])
    else
      (.ok (publishPostImpl platform text user_id connection_id media_id
              (orEmptyObj (metadata.getD .null))), st, [])

/-- Embeds `call_upload_media`; arguments are forwarded as given. -/
def call_upload_media (cfg : Config) (world : Nat → HttpResponse) (genId : Nat → String)
    (jsonLoads : String → Option Json)
    (uploadMediaImpl : String → String → String → Option Int → Option String → Json)
    (st : ClientState) (platform media_base64 user_id : String)
    (connection_id : Option Int) (image_url : Option String) :
    Except CallError Json × ClientState × List RequestLog :=
  match _mcp_base_url cfg with
  | .error e => (.error e, st, [])
  | .ok base =>
    if truthyS base then
      _call_remote_tool cfg world genId jsonLoads st "upload_media_tool"
        (.obj [("platform", .str platform), ("media_base64", .str media_base64),
               ("user_id", .str user_id),
               ("connection_id", jsonOfOptInt connection_id),
               ("image_url", jsonOfOptStr image_url)])
    else
      (.ok (uploadMediaImpl platform media_base64 user_id connection_id image_url), st, [])

/-- One `_call_remote_tool` invocation's inputs, for multi-call traces. -/
structure CallSpec where
  world : Nat → HttpResponse
  genId : Nat → String
  name : String
  arguments : Json

/-- A sequence of `_call_remote_tool` invocations within one process,
threading the module-level session state from call to call. -/
def runCalls (cfg : Config) (jsonLoads : String → Option Json) (st : ClientState) :
    List CallSpec → List (Except CallError Json × List RequestLog) × ClientState
  | [] => ([], st)
  | c :: rest =>
    let r := _call_remote_tool cfg c.world c.genId jsonLoads st c.name c.arguments
    let t := runCalls cfg jsonLoads r.2.1 rest
    ((r.1, r.2.2) :: t.1, t.2)

/-- The `method` member of a logged request's payload. -/
def reqMethod (r : RequestLog) : Option Json :=
  match r.payload with
  | .obj kvs => jlookup "method" kvs
  | _ => none

/-- A handshake attempt that succeeds: successful HTTP status and a body
that parses to JSON with no `error` member. -/
def handshakeOk (r : HttpResponse) : Prop :=
  r.is_success = true ∧ ∃ j, r.body = .ok j ∧ pyIn "error" (orEmptyObj j) = .ok false

/-- A handshake attempt that fails as the spec describes it: non-success
HTTP, or a JSON body with an `error` member. -/
def handshakeFail (r : HttpResponse) : Prop :=
  r.is_success = false ∨ ∃ j, r.body = .ok j ∧ pyIn "error" (orEmptyObj j) = .ok true

/-! ### Concrete instances used by counterexamples and witnesses -/

/-- An image URL whose host is the IPv6 loopback `::1`. -/
def ipv6LoopbackUrl : String := "http://[::1]/img.png"

/-- Downloader oracle returning the bytes 1, 2, 3 for every URL. -/
def dlConst : Downloader := fun _ _ => .ok [1, 2, 3]

/-- Downloader oracle that always raises. -/
def dlFail : Downloader := fun _ _ => .error ()

/-- A pipeline state whose only image candidate is the IPv6-loopback URL,
also advertised as the page's `og:image`. -/
def ipv6State : AgentState :=
  { scraped_content := some { images := [.str ipv6LoopbackUrl],
                              metadata := some { og_image := some ipv6LoopbackUrl } } }

/-- A pipeline state with no scraped content at all. -/
def stEmpty : AgentState := {}

/-- A same-site candidate (spec example): small but on the article host. -/
def imgSame : ImageDict :=
  { src := some "https://example.com/b.jpg", width := some "50", height := some "50" }

/-- An off-site candidate (spec example): large but on a CDN host. -/
def imgCdn : ImageDict :=
  { src := some "https://cdn.example.com/a.jpg", width := some "100", height := some "100" }

/-- A configuration pointing at a standalone MCP server. -/
def cfgRemote : Config := { mcp_publish_url := some "http://srv/mcp" }

/-- A response world that answers every POST with a failing HTTP status. -/
def worldDown : Nat → HttpResponse := fun _ => { is_success := false, body := .ok (.obj []) }

/-- A response world whose every response is successful, carries the
session header `S1`, and has an empty-object body. -/
def worldUp : Nat → HttpResponse :=
  fun _ => { is_success := true, session_header := some "S1", body := .ok (.obj []) }

/-- A response world answering with a `tools/call` result whose only
content part is the non-JSON text `not json`. -/
def worldNotJson : Nat → HttpResponse :=
  fun _ => { is_success := true,
             body := .ok (.obj [("result",
               .obj [("content", .arr [.obj [("text", .str "not json")]])])]) }

/-- A fixed request-id oracle. -/
def idsConst : Nat → String := fun _ => "id-0"

/-- A `json.loads` oracle on which every parse fails. -/
def loadsNone : String → Option Json := fun _ => none

/-- A call of the publish tool with empty arguments, against `worldDown`. -/
def callDown : CallSpec := ⟨worldDown, idsConst, "publish_post_tool", .obj []⟩

/-- An already-initialized session state with a captured session id. -/
def stInit : ClientState := { remote_initialized := true, remote_session_id := some "S1" }

/-! ### Helper lemmas -/

theorem strEq_iff {a b : String} : strEq a b = true ↔ a = b := by
  constructor
  · intro h
    have hd : a.data = b.data := by simpa [strEq] using h
    cases a
    cases b
    exact congrArg String.mk hd
  · intro h
    subst h
    simp [strEq]

theorem data_isEmpty_iff {s : String} : s.data.isEmpty = true ↔ s = "" := by
  cases s with
  | mk l =>
    cases l with
    | nil => simp
    | cons c cs =>
      simp only [List.isEmpty, Bool.false_eq_true, false_iff]
      intro h
      have : (String.mk (c :: cs)).data = ("" : String).data := by rw [h]
      simp at this

theorem str_isEmpty_false {s : String} (h : s ≠ "") : s.data.isEmpty = false := by
  cases hh : s.data.isEmpty
  · rfl
  · exact absurd (data_isEmpty_iff.mp hh) h

theorem keyGE_true_iff {x y : Nat × Nat} :
    keyGE x y = true ↔ (y.1 < x.1 ∨ (x.1 = y.1 ∧ y.2 ≤ x.2)) := by
  simp [keyGE]

theorem ogSplit_of_split (og : String) (pre post : List ImageDict) (im : ImageDict)
    (hpre : ∀ x ∈ pre, x.src.getD "" ≠ og) (hm : im.src.getD "" = og) :
    ogSplit og (pre ++ im :: post) = some (im, pre ++ post) := by
  induction pre with
  | nil =>
    simp only [List.nil_append, ogSplit]
    rw [if_pos (strEq_iff.mpr hm)]
  | cons x xs ih =>
    have hx : ¬ strEq (x.src.getD "") og = true := by
      rw [strEq_iff]
      exact hpre x (by simp)
    simp only [List.cons_append, ogSplit, List.append_eq]
    rw [if_neg hx, ih (fun y hy => hpre y (List.mem_cons_of_mem _ hy))]

theorem ogSplit_none (og : String) (images : List ImageDict)
    (h : ∀ x ∈ images, x.src.getD "" ≠ og) : ogSplit og images = none := by
  induction images with
  | nil => rfl
  | cons x xs ih =>
    have hx : ¬ strEq (x.src.getD "") og = true := by
      rw [strEq_iff]
      exact h x (by simp)
    simp only [ogSplit]
    rw [if_neg hx]
    rw [ih (fun y hy => h y (List.mem_cons_of_mem _ hy))]

theorem ordered_eq_mergeSort (images : List ImageDict) (article_url og : String)
    (hog : og = "" ∨ ∀ im ∈ images, im.src.getD "" ≠ og) :
    _ordered_candidates images article_url og =
      images.mergeSort (fun a b => keyGE (score article_url a) (score article_url b)) := by
  cases images with
  | nil => simp [_ordered_candidates, List.isEmpty]
  | cons x xs =>
    by_cases he : og = ""
    · subst he
      simp [_ordered_candidates, List.isEmpty]
    · rcases hog with h | h
      · exact absurd h he
      · simp [_ordered_candidates, List.isEmpty, str_isEmpty_false he,
              ogSplit_none og (x :: xs) h]

theorem tryCandidates_none (dl : Downloader) (referer : Option String)
    (cands : List ImageDict)
    (h : ∀ c ∈ cands,
        _is_local_or_unusable ((pyOrS c.src (pyOrS c.url (some ""))).getD "") = true ∨
        dl ((pyOrS c.src (pyOrS c.url (some ""))).getD "") referer = .error () ∨
        dl ((pyOrS c.src (pyOrS c.url (some ""))).getD "") referer = .ok []) :
    (tryCandidates dl referer cands).1 = none := by
  induction cands with
  | nil => rfl
  | cons c rest ih =>
    have hrest := ih (fun y hy => h y (List.mem_cons_of_mem _ hy))
    by_cases hl : _is_local_or_unusable ((pyOrS c.src (pyOrS c.url (some ""))).getD "") = true
    · simp [tryCandidates, hl, hrest]
    · rcases h c (by simp) with hc | hc | hc
      · exact absurd hc hl
      · simp [tryCandidates, hl, hc, hrest]
      · simp [tryCandidates, hl, hc, hrest]

/-! ### Claim theorems -/

/-- Claim C4: for every non-empty og hint matched exactly by some candidate's
`src`, `_ordered_candidates` returns the first such candidate first and
the remaining candidates in their original relative input order, with no
same-site/area sorting applied. -/
theorem og_match_moved_to_front (images pre post : List ImageDict) (im : ImageDict)
    (article_url og : String) (hog : og ≠ "")
    (hsplit : images = pre ++ im :: post)
    (hpre : ∀ x ∈ pre, x.src.getD "" ≠ og)
    (hmatch : im.src.getD "" = og) :
    _ordered_candidates images article_url og = im :: (pre ++ post) := by
  subst hsplit
  have hne : (pre ++ im :: post).isEmpty = false := by
    cases pre <;> simp [List.isEmpty]
  simp [_ordered_candidates, hne, str_isEmpty_false hog,
        ogSplit_of_split og pre post im hpre hmatch]

theorem og_match_moved_to_front_witness :
    _ordered_candidates [imgCdn, imgSame] "https://example.com/post"
        "https://example.com/b.jpg" = imgSame :: ([imgCdn] ++ []) :=
  og_match_moved_to_front [imgCdn, imgSame] [imgCdn] [] imgSame
    "https://example.com/post" "https://example.com/b.jpg"
    (by decide) rfl (by intro x hx; simp at hx; subst hx; decide) rfl

/-- Claim C9: when more than one candidate's `src` equals the non-empty og hint,
`_ordered_candidates` moves the first match (in input order) to the front,
and later matches keep their original relative positions among the rest;
no same-site/area sorting occurs. -/
theorem og_duplicate_first_match_front (pre mid post : List ImageDict) (im im2 : ImageDict)
    (article_url og : String) (hog : og ≠ "")
    (hpre : ∀ x ∈ pre, x.src.getD "" ≠ og)
    (hm1 : im.src.getD "" = og) (hm2 : im2.src.getD "" = og) :
    _ordered_candidates (pre ++ im :: (mid ++ im2 :: post)) article_url og
      = im :: (pre ++ (mid ++ im2 :: post)) := by
  have hne : (pre ++ im :: (mid ++ im2 :: post)).isEmpty = false := by
    cases pre <;> simp [List.isEmpty]
  simp [_ordered_candidates, hne, str_isEmpty_false hog,
        ogSplit_of_split og pre (mid ++ im2 :: post) im hpre hm1]

theorem og_duplicate_first_match_front_witness :
    _ordered_candidates ([imgCdn] ++ imgSame :: ([] ++ imgSame :: []))
        "https://example.com/post" "https://example.com/b.jpg"
      = imgSame :: ([imgCdn] ++ ([] ++ imgSame :: [])) :=
  og_duplicate_first_match_front [imgCdn] [] [] imgSame imgSame
    "https://example.com/post" "https://example.com/b.jpg"
    (by decide) (by intro x hx; simp at hx; subst hx; decide) rfl rfl

/-- Claim C5: with no og match, `_ordered_candidates` returns a permutation of
the input sorted descending by the key `(same_site, width * height)`:
same-host candidates precede off-host ones and, within equal same-site
status, larger area precedes smaller; a candidate with non-numeric or
missing width or height scores area 0; and `_same_site` holds exactly when
both URLs parse to non-empty, case-insensitively-equal hosts. -/
theorem no_og_sorted_by_site_and_area (images : List ImageDict) (article_url og : String)
    (hog : og = "" ∨ ∀ im ∈ images, im.src.getD "" ≠ og) :
    List.Perm (_ordered_candidates images article_url og) images ∧
    List.Pairwise (fun a b =>
        (score article_url b).1 < (score article_url a).1 ∨
        ((score article_url a).1 = (score article_url b).1 ∧
         (score article_url b).2 ≤ (score article_url a).2))
      (_ordered_candidates images article_url og) ∧
    (∀ (au : String) (im : ImageDict),
        pyIsDigit (im.width.getD "") = false ∨ pyIsDigit (im.height.getD "") = false →
        (score au im).2 = 0) ∧
    (∀ a i : String, _same_site a i = true ↔
        ∃ pa pim, urlparse? a = some pa ∧ urlparse? i = some pim ∧
          pa.netloc ≠ "" ∧ pim.netloc ≠ "" ∧ pyLower pa.netloc = pyLower pim.netloc) := by
  have hms := ordered_eq_mergeSort images article_url og hog
  refine ⟨?_, ?_, ?_, ?_⟩
  · rw [hms]
    exact List.mergeSort_perm images _
  · rw [hms]
    have htrans : ∀ a b c : ImageDict,
        keyGE (score article_url a) (score article_url b) = true →
        keyGE (score article_url b) (score article_url c) = true →
        keyGE (score article_url a) (score article_url c) = true := by
      intro a b c h1 h2
      rw [keyGE_true_iff] at *
      omega
    have htotal : ∀ a b : ImageDict,
        (keyGE (score article_url a) (score article_url b) ||
         keyGE (score article_url b) (score article_url a)) = true := by
      intro a b
      rw [Bool.or_eq_true, keyGE_true_iff, keyGE_true_iff]
      omega
    have hp := @List.sorted_mergeSort ImageDict
      (fun a b => keyGE (score article_url a) (score article_url b)) htrans htotal images
    exact hp.imp (fun h => keyGE_true_iff.mp h)
  · intro au im h
    rcases h with h | h
    · cases hw : im.width with
      | none => simp [score, hw]
      | some v =>
        have hv : pyIsDigit v = false := by simpa [hw] using h
        simp [score, hw, hv]
    · cases hh : im.height with
      | none => simp [score, hh]
      | some v =>
        have hv : pyIsDigit v = false := by simpa [hh] using h
        simp [score, hh, hv]
  · intro a i
    unfold _same_site
    cases hpa : urlparse? a with
    | none => simp [hpa]
    | some pa =>
      cases hpi : urlparse? i with
      | none => simp [hpa, hpi]
      | some pim =>
        simp only [hpa, hpi, Bool.and_eq_true, Bool.not_eq_true', strEq_iff]
        constructor
        · rintro ⟨⟨h1, h2⟩, h3⟩
          exact ⟨pa, pim, rfl, rfl,
                 fun he => by simp [he] at h1,
                 fun he => by simp [he] at h2, h3⟩
        · rintro ⟨pa', pim', hpe, hie, h1, h2, h3⟩
          rw [Option.some.injEq] at hpe hie
          subst hpe; subst hie
          exact ⟨⟨str_isEmpty_false h1, str_isEmpty_false h2⟩, h3⟩

theorem no_og_sorted_by_site_and_area_witness :
    List.Perm (_ordered_candidates [imgCdn, imgSame] "https://example.com/post" "")
      [imgCdn, imgSame] :=
  (no_og_sorted_by_site_and_area [imgCdn, imgSame] "https://example.com/post" ""
    (Or.inl rfl)).1

/-- Claim C2 is a code bug: the candidate `http://[::1]/img.png` has host `::1`
(lower-cased, port stripped), yet `_is_local_or_unusable` returns `false`
for it — `netloc.lower().split(":")[0]` evaluates to `"["`, which the
membership test against `("localhost", "127.0.0.1", "::1")` can never
match — so `select_image` invokes the downloader on it and writes it into
`image_metadata`. -/
theorem ipv6_loopback_not_skipped :
    (urlparse? ipv6LoopbackUrl).map (fun p => pyHostname p.netloc) = some "::1" ∧
    _is_local_or_unusable ipv6LoopbackUrl = false ∧
    (select_image dlConst "t0" ipv6State).2 = [(ipv6LoopbackUrl, none)] ∧
    (select_image dlConst "t0" ipv6State).1.image_metadata =
      some { image_url := ipv6LoopbackUrl, caption := "", source := "firecrawl",
             image_base64 := "AQID" } :=
  ⟨by decide, by decide, by decide, by decide⟩

/-- Claim C7: an empty normalized image list yields an empty `image_metadata`
and no downloader invocation; and when every ordered candidate is
unusable, fails to download, or yields empty bytes, `image_metadata` is
likewise empty (and, the embedding being total, no error escapes). -/
theorem select_image_empty_result (dl : Downloader) (now : String) (state : AgentState)
    (hterm : state.terminated = false) :
    (normalizeImages (scrapedOf state).images = [] →
       (select_image dl now state).1.image_metadata = none ∧
       (select_image dl now state).2 = []) ∧
    ((∀ c ∈ _ordered_candidates (normalizeImages (scrapedOf state).images)
          (articleUrlOf state) (ogOf state),
        _is_local_or_unusable ((pyOrS c.src (pyOrS c.url (some ""))).getD "") = true ∨
        dl ((pyOrS c.src (pyOrS c.url (some ""))).getD "") (refererOf state) = .error () ∨
        dl ((pyOrS c.src (pyOrS c.url (some ""))).getD "") (refererOf state) = .ok []) →
       (select_image dl now state).1.image_metadata = none) := by
  constructor
  · intro h
    simp [select_image, hterm, h, _ordered_candidates, List.isEmpty, tryCandidates]
  · intro h
    simp [select_image, hterm]
    exact tryCandidates_none dl (refererOf state) _ h

theorem select_image_empty_result_witness :
    (select_image dlFail "t0" stEmpty).1.image_metadata = none ∧
    (select_image dlFail "t0" stEmpty).2 = [] :=
  (select_image_empty_result dlFail "t0" stEmpty rfl).1 rfl

/-- Claim C8: when `terminated` is unset, `select_image` changes only
`image_metadata` and `updated_at` — every other state key keeps its input
value — and when `terminated` is set the state is returned unchanged with
no downloader invocation. -/
theorem select_image_frame (dl : Downloader) (now : String) (state : AgentState) :
    (state.terminated = false →
       (select_image dl now state).1.terminated = state.terminated ∧
       (select_image dl now state).1.url = state.url ∧
       (select_image dl now state).1.scraped_content = state.scraped_content ∧
       (select_image dl now state).1.extra = state.extra ∧
       (select_image dl now state).1.updated_at = some now) ∧
    (state.terminated = true → select_image dl now state = (state, [])) := by
  constructor
  · intro h
    simp [select_image, h]
  · intro h
    simp [select_image, h]

theorem select_image_frame_witness :
    (select_image dlConst "t1" ipv6State).1.scraped_content = ipv6State.scraped_content :=
  ((select_image_frame dlConst "t1" ipv6State).1 rfl).2.2.1

/-! ### Helper lemmas for the publish client -/

theorem reqMethod_init {id : String} {hs : List (String × String)} :
    reqMethod ⟨initPayload id, hs⟩ = some (.str "initialize") := rfl

theorem reqMethod_notif {hs : List (String × String)} :
    reqMethod ⟨initializedNotification, hs⟩ = some (.str "notifications/initialized") := rfl

theorem reqMethod_toolsCall {id name : String} {args : Json} {hs : List (String × String)} :
    reqMethod ⟨toolsCallPayload id name args, hs⟩ = some (.str "tools/call") := rfl

theorem handshakeStep_skip (world : Nat → HttpResponse) (genId : Nat → String)
    {st : ClientState} (h : st.remote_initialized = true) :
    handshakeStep world genId st = (st, [], none, 0) := by
  simp [handshakeStep, h]

theorem handshakeStep_ok (world : Nat → HttpResponse) (genId : Nat → String)
    {st : ClientState} (h : st.remote_initialized = false) (hok : handshakeOk (world 0)) :
    handshakeStep world genId st =
      ({ remote_initialized := true, remote_session_id := sidUpdate st (world 0).session_header },
       [⟨initPayload (genId 0), _session_headers st⟩,
        ⟨initializedNotification,
         _session_headers { remote_initialized := true,
                            remote_session_id := sidUpdate st (world 0).session_header }⟩],
       none, 1) := by
  obtain ⟨hs, j, hb, hp⟩ := hok
  simp [handshakeStep, h, hs, hb, hp]

theorem handshakeStep_failed (world : Nat → HttpResponse) (genId : Nat → String)
    {st : ClientState} (h : st.remote_initialized = false) (hf : handshakeFail (world 0)) :
    handshakeStep world genId st =
      (st, [⟨initPayload (genId 0), _session_headers st⟩], none, 1) := by
  rcases hf with hs | ⟨j, hb, hp⟩
  · simp [handshakeStep, h, hs]
  · cases hs : (world 0).is_success
    · simp [handshakeStep, h, hs]
    · simp [handshakeStep, h, hs, hb, hp]

theorem handshakeStep_state (world : Nat → HttpResponse) (genId : Nat → String)
    (st : ClientState) :
    (handshakeStep world genId st).1 = st ∨
    (st.remote_initialized = false ∧
     (handshakeStep world genId st).1.remote_initialized = true ∧
     (handshakeStep world genId st).1.remote_session_id =
       sidUpdate st (world 0).session_header) := by
  cases h : st.remote_initialized
  · cases hs : (world 0).is_success
    · left
      simp [handshakeStep, h, hs]
    · cases hb : (world 0).body with
      | error e => left; simp [handshakeStep, h, hs, hb]
      | ok body =>
        cases hp : pyIn "error" (orEmptyObj body) with
        | error e => left; simp [handshakeStep, h, hs, hb, hp]
        | ok hasErr =>
          cases hasErr
          · right
            simp [handshakeStep, h, hs, hb, hp]
          · left
            simp [handshakeStep, h, hs, hb, hp]
  · left
    simp [handshakeStep, h]

theorem mcp_base_url_error_eq {cfg : Config} {e : CallError}
    (h : _mcp_base_url cfg = .error e) : e = .valueError := by
  unfold _mcp_base_url at h
  dsimp only at h
  split at h
  · simp at h
  · split at h
    · simpa using h.symm
    · split at h <;> simp at h

theorem pyIn_error_eq {k : String} {v : Json} {e : CallError}
    (h : pyIn k v = .error e) : e = .typeError := by
  cases v <;> simp [pyIn] at h <;> exact h.symm

theorem pyDictGet_error_eq {k : String} {v : Json} {e : CallError}
    (h : pyDictGet k v = .error e) : e = .typeError := by
  cases v <;> simp [pyDictGet] at h <;> exact h.symm

theorem textParts_error_eq : ∀ {items : List Json} {e : CallError},
    textParts items = .error e → e = .typeError := by
  intro items
  induction items with
  | nil =>
    intro e h
    simp [textParts] at h
  | cons x rest ih =>
    intro e h
    cases x with
    | obj kvs =>
      simp only [textParts] at h
      split at h
      · split at h
        · simp at h
        · next e2 heq =>
          injection h with h2
          exact h2 ▸ ih heq
      · exact ih h
    | null => simpa [textParts] using (by simpa [textParts] using h : CallError.typeError = e).symm
    | bool b => exact (by simpa [textParts] using h : CallError.typeError = e).symm
    | num n => exact (by simpa [textParts] using h : CallError.typeError = e).symm
    | str s => exact (by simpa [textParts] using h : CallError.typeError = e).symm
    | arr xs => exact (by simpa [textParts] using h : CallError.typeError = e).symm

theorem handshakeStep_abort_eq {world : Nat → HttpResponse} {genId : Nat → String}
    {st : ClientState} {e : CallError}
    (h : (handshakeStep world genId st).2.2.1 = some e) :
    e = .jsonDecodeError ∨ e = .typeError := by
  cases hin : st.remote_initialized
  · cases hs : (world 0).is_success
    · simp [handshakeStep, hin, hs] at h
    · cases hb : (world 0).body with
      | error u =>
        left
        simp [handshakeStep, hin, hs, hb] at h
        exact h.symm
      | ok body =>
        cases hp : pyIn "error" (orEmptyObj body) with
        | error e2 =>
          right
          have he2 := pyIn_error_eq hp
          simp [handshakeStep, hin, hs, hb, hp, he2] at h
          exact h.symm
        | ok hasErr =>
          cases hasErr <;> simp [handshakeStep, hin, hs, hb, hp] at h
  · simp [handshakeStep, hin] at h

theorem handleToolResponse_ne_urlNotSet (jsonLoads : String → Option Json)
    (r : HttpResponse) : handleToolResponse jsonLoads r ≠ .error .urlNotSet := by
  unfold handleToolResponse
  split
  · simp
  · split
    · simp
    · next data heq =>
      split
      · next e heq2 => simp [pyIn_error_eq heq2]
      · split
        · split <;> (try split) <;> (try split) <;> simp
        · split
          · next e heq3 => simp [pyDictGet_error_eq heq3]
          · simp
          · split
            · simp
            · split
              · next e heq4 => simp [pyDictGet_error_eq heq4]
              · split
                · split
                  · next e heq5 => simp [textParts_error_eq heq5]
                  · simp
                  · split <;> simp
                · simp

theorem call_remote_tool_eq (cfg : Config) (world : Nat → HttpResponse)
    (genId : Nat → String) (jsonLoads : String → Option Json) (st : ClientState)
    (name : String) (args : Json) (hb : baseTruthy cfg = true) :
    _call_remote_tool cfg world genId jsonLoads st name args =
      (match (handshakeStep world genId st).2.2.1 with
       | some e => (.error e, (handshakeStep world genId st).1,
                    (handshakeStep world genId st).2.1)
       | none =>
         (handleToolResponse jsonLoads (world (handshakeStep world genId st).2.1.length),
          (handshakeStep world genId st).1,
          (handshakeStep world genId st).2.1 ++
            [⟨toolsCallPayload (genId (handshakeStep world genId st).2.2.2) name args,
              _session_headers (handshakeStep world genId st).1⟩])) := by
  unfold baseTruthy at hb
  unfold _call_remote_tool
  cases hm : _mcp_base_url cfg with
  | error e =>
    rw [hm] at hb
    simp at hb
  | ok b =>
    rw [hm] at hb
    have hb' : truthyS b = true := hb
    simp [hb']

theorem call_remote_tool_state (cfg : Config) (world : Nat → HttpResponse)
    (genId : Nat → String) (jsonLoads : String → Option Json) (st : ClientState)
    (name : String) (args : Json) :
    (_call_remote_tool cfg world genId jsonLoads st name args).2.1 = st ∨
    (st.remote_initialized = false ∧
     (_call_remote_tool cfg world genId jsonLoads st name args).2.1.remote_initialized = true ∧
     (_call_remote_tool cfg world genId jsonLoads st name args).2.1.remote_session_id =
       sidUpdate st (world 0).session_header) := by
  unfold _call_remote_tool
  cases hm : _mcp_base_url cfg with
  | error e => left; rfl
  | ok b =>
    cases ht : truthyS b
    · left
      simp [ht]
    · simp only [ht, Bool.not_true, Bool.false_eq_true, if_false]
      cases habort : (handshakeStep world genId st).2.2.1 with
      | some e =>
        simpa [habort] using handshakeStep_state world genId st
      | none =>
        simpa [habort] using handshakeStep_state world genId st

theorem call_remote_tool_ne_urlNotSet (cfg : Config) (world : Nat → HttpResponse)
    (genId : Nat → String) (jsonLoads : String → Option Json) (st : ClientState)
    (name : String) (args : Json) (hb : baseTruthy cfg = true) :
    (_call_remote_tool cfg world genId jsonLoads st name args).1 ≠ .error .urlNotSet := by
  rw [call_remote_tool_eq cfg world genId jsonLoads st name args hb]
  cases habort : (handshakeStep world genId st).2.2.1 with
  | some e =>
    simp only [habort]
    rcases handshakeStep_abort_eq habort with he | he <;> simp [he]
  | none =>
    simp only [habort]
    exact handleToolResponse_ne_urlNotSet jsonLoads _

theorem state_props {st st' : ClientState} (hdr : Option String)
    (h : st' = st ∨ (st.remote_initialized = false ∧ st'.remote_initialized = true ∧
                     st'.remote_session_id = sidUpdate st hdr))
    (hinv : st.remote_session_id = none ∨ st.remote_initialized = true) :
    (st.remote_initialized = true → st' = st) ∧
    (st'.remote_session_id = none ∨ st'.remote_initialized = true) ∧
    (st'.remote_session_id ≠ st.remote_session_id →
       st.remote_session_id = none ∧ st.remote_initialized = false ∧
       st'.remote_initialized = true) ∧
    (st'.remote_initialized = false → st' = st) := by
  rcases h with h | ⟨h1, h2, h3⟩
  · subst h
    exact ⟨fun _ => rfl, hinv, fun hne => absurd rfl hne, fun _ => rfl⟩
  · refine ⟨fun hh => absurd h1 (by simp [hh]), Or.inr h2, ?_,
            fun hh => absurd h2 (by simp [hh])⟩
    intro _
    refine ⟨?_, h1, h2⟩
    rcases hinv with hn | hf
    · exact hn
    · exact absurd h1 (by simp [hf])

theorem call_publish_post_state (cfg : Config) (world : Nat → HttpResponse)
    (genId : Nat → String) (jsonLoads : String → Option Json) (jsonDumps : Json → String)
    (ppImpl : String → String → String → Option Int → Option String → Json → Json)
    (st : ClientState) (platform text user_id : String) (connection_id : Option Int)
    (media_id : Option String) (metadata : Option Json) :
    (call_publish_post cfg world genId jsonLoads jsonDumps ppImpl st platform text user_id
        connection_id media_id metadata).2.1 = st ∨
    (st.remote_initialized = false ∧
     (call_publish_post cfg world genId jsonLoads jsonDumps ppImpl st platform text user_id
        connection_id media_id metadata).2.1.remote_initialized = true ∧
     (call_publish_post cfg world genId jsonLoads jsonDumps ppImpl st platform text user_id
        connection_id media_id metadata).2.1.remote_session_id =
       sidUpdate st (world 0).session_header) := by
  unfold call_publish_post
  cases hm : _mcp_base_url cfg with
  | error e => left; rfl
  | ok b =>
    cases ht : truthyS b
    · left
      simp [ht]
    · simp only [ht, if_true]
      exact call_remote_tool_state cfg world genId jsonLoads st "publish_post_tool" _

theorem call_upload_media_state (cfg : Config) (world : Nat → HttpResponse)
    (genId : Nat → String) (jsonLoads : String → Option Json)
    (umImpl : String → String → String → Option Int → Option String → Json)
    (st : ClientState) (platform media_base64 user_id : String)
    (connection_id : Option Int) (image_url : Option String) :
    (call_upload_media cfg world genId jsonLoads umImpl st platform media_base64 user_id
        connection_id image_url).2.1 = st ∨
    (st.remote_initialized = false ∧
     (call_upload_media cfg world genId jsonLoads umImpl st platform media_base64 user_id
        connection_id image_url).2.1.remote_initialized = true ∧
     (call_upload_media cfg world genId jsonLoads umImpl st platform media_base64 user_id
        connection_id image_url).2.1.remote_session_id =
       sidUpdate st (world 0).session_header) := by
  unfold call_upload_media
  cases hm : _mcp_base_url cfg with
  | error e => left; rfl
  | ok b =>
    cases ht : truthyS b
    · left
      simp [ht]
    · simp only [ht, if_true]
      exact call_remote_tool_state cfg world genId jsonLoads st "upload_media_tool" _

/-! ### Remaining claim theorems -/

/-- Claim C1 as stated is refuted at a concrete input: in a fresh process
whose remote server answers every POST with a failing HTTP status, the
first standalone call issues 2 requests (initialize, tools/call — not 3),
and the second call again issues 2 requests starting with `initialize`
(not 1): a failed handshake is retried on the next call. -/
theorem handshake_retried_after_failure_cex :
    (runCalls cfgRemote loadsNone {} [callDown, callDown]).1.map
        (fun o => o.2.map reqMethod) =
      [[some (.str "initialize"), some (.str "tools/call")],
       [some (.str "initialize"), some (.str "tools/call")]] ∧
    (runCalls cfgRemote loadsNone {} [callDown, callDown]).1.map
        (fun o => o.2.length) = [2, 2] := by
  constructor <;> rfl

/-- Claim C1, amended: the handshake is attempted on every call until it
first succeeds.  A call entered with the handshake already recorded issues
exactly 1 request (tools/call only, with the captured session headers); a
call whose handshake attempt succeeds issues exactly 3 (initialize,
initialized-notification, tools/call) and records the handshake; a call
whose handshake attempt fails (non-success HTTP or an `error` member)
issues exactly 2 (initialize, then tools/call without retrying within the
call) and leaves the handshake unrecorded, so it is re-attempted on the
next call. -/
theorem call_remote_tool_request_trace (cfg : Config) (world : Nat → HttpResponse)
    (genId : Nat → String) (jsonLoads : String → Option Json) (st : ClientState)
    (name : String) (args : Json) (hb : baseTruthy cfg = true) :
    (st.remote_initialized = true →
       (_call_remote_tool cfg world genId jsonLoads st name args).2.2 =
         [⟨toolsCallPayload (genId 0) name args, _session_headers st⟩] ∧
       (_call_remote_tool cfg world genId jsonLoads st name args).2.1 = st) ∧
    (st.remote_initialized = false → handshakeOk (world 0) →
       (_call_remote_tool cfg world genId jsonLoads st name args).2.2.map reqMethod =
         [some (.str "initialize"), some (.str "notifications/initialized"),
          some (.str "tools/call")] ∧
       (_call_remote_tool cfg world genId jsonLoads st name args).2.1.remote_initialized
         = true) ∧
    (st.remote_initialized = false → handshakeFail (world 0) →
       (_call_remote_tool cfg world genId jsonLoads st name args).2.2.map reqMethod =
         [some (.str "initialize"), some (.str "tools/call")] ∧
       (_call_remote_tool cfg world genId jsonLoads st name args).2.1 = st) := by
  rw [call_remote_tool_eq cfg world genId jsonLoads st name args hb]
  refine ⟨?_, ?_, ?_⟩
  · intro h
    rw [handshakeStep_skip world genId h]
    exact ⟨rfl, rfl⟩
  · intro h hok
    rw [handshakeStep_ok world genId h hok]
    exact ⟨by simp [reqMethod_init, reqMethod_notif, reqMethod_toolsCall], rfl⟩
  · intro h hf
    rw [handshakeStep_failed world genId h hf]
    exact ⟨by simp [reqMethod_init, reqMethod_toolsCall], rfl⟩

theorem call_remote_tool_request_trace_witness :
    (_call_remote_tool cfgRemote worldUp idsConst loadsNone {} "publish_post_tool"
        (.obj [])).2.2.map reqMethod =
      [some (.str "initialize"), some (.str "notifications/initialized"),
       some (.str "tools/call")] :=
  ((call_remote_tool_request_trace cfgRemote worldUp idsConst loadsNone {}
      "publish_post_tool" (.obj []) (by decide)).2.1 rfl
    ⟨rfl, .obj [], rfl, rfl⟩).1

/-- Claim C3: across `call_publish_post` and `call_upload_media`, once the
set-together invariant (a session id is only present when the handshake is
recorded) holds on entry, it holds on exit; a state with the handshake
recorded is never changed; and whenever the session id changes, it was
previously unset and the initialized flag is recorded in the same step —
so neither field is ever reset or changed once set within a process. -/
theorem session_state_set_once (cfg : Config) (world : Nat → HttpResponse)
    (genId : Nat → String) (jsonLoads : String → Option Json) (jsonDumps : Json → String)
    (ppImpl : String → String → String → Option Int → Option String → Json → Json)
    (umImpl : String → String → String → Option Int → Option String → Json)
    (st : ClientState) (platform text user_id media_base64 : String)
    (connection_id : Option Int) (media_id : Option String) (metadata : Option Json)
    (image_url : Option String)
    (hinv : st.remote_session_id = none ∨ st.remote_initialized = true) :
    ((st.remote_initialized = true →
        (call_publish_post cfg world genId jsonLoads jsonDumps ppImpl st platform text
          user_id connection_id media_id metadata).2.1 = st) ∧
     ((call_publish_post cfg world genId jsonLoads jsonDumps ppImpl st platform text
          user_id connection_id media_id metadata).2.1.remote_session_id = none ∨
      (call_publish_post cfg world genId jsonLoads jsonDumps ppImpl st platform text
          user_id connection_id media_id metadata).2.1.remote_initialized = true) ∧
     ((call_publish_post cfg world genId jsonLoads jsonDumps ppImpl st platform text
          user_id connection_id media_id metadata).2.1.remote_session_id ≠
        st.remote_session_id →
        st.remote_session_id = none ∧ st.remote_initialized = false ∧
        (call_publish_post cfg world genId jsonLoads jsonDumps ppImpl st platform text
          user_id connection_id media_id metadata).2.1.remote_initialized = true) ∧
     ((call_publish_post cfg world genId jsonLoads jsonDumps ppImpl st platform text
          user_id connection_id media_id metadata).2.1.remote_initialized = false →
        (call_publish_post cfg world genId jsonLoads jsonDumps ppImpl st platform text
          user_id connection_id media_id metadata).2.1 = st)) ∧
    ((st.remote_initialized = true →
        (call_upload_media cfg world genId jsonLoads umImpl st platform media_base64
          user_id connection_id image_url).2.1 = st) ∧
     ((call_upload_media cfg world genId jsonLoads umImpl st platform media_base64
          user_id connection_id image_url).2.1.remote_session_id = none ∨
      (call_upload_media cfg world genId jsonLoads umImpl st platform media_base64
          user_id connection_id image_url).2.1.remote_initialized = true) ∧
     ((call_upload_media cfg world genId jsonLoads umImpl st platform media_base64
          user_id connection_id image_url).2.1.remote_session_id ≠
        st.remote_session_id →
        st.remote_session_id = none ∧ st.remote_initialized = false ∧
        (call_upload_media cfg world genId jsonLoads umImpl st platform media_base64
          user_id connection_id image_url).2.1.remote_initialized = true) ∧
     ((call_upload_media cfg world genId jsonLoads umImpl st platform media_base64
          user_id connection_id image_url).2.1.remote_initialized = false →
        (call_upload_media cfg world genId jsonLoads umImpl st platform media_base64
          user_id connection_id image_url).2.1 = st)) := by
  constructor
  · have hprops := state_props ((world 0).session_header)
      (call_publish_post_state cfg world genId jsonLoads jsonDumps ppImpl st platform
        text user_id connection_id media_id metadata) hinv
    exact ⟨hprops.1, hprops.2.1, fun hne => ⟨(hprops.2.2.1 hne).1, (hprops.2.2.1 hne).2.1,
           (hprops.2.2.1 hne).2.2⟩, hprops.2.2.2⟩
  · have hprops := state_props ((world 0).session_header)
      (call_upload_media_state cfg world genId jsonLoads umImpl st platform media_base64
        user_id connection_id image_url) hinv
    exact ⟨hprops.1, hprops.2.1, fun hne => ⟨(hprops.2.2.1 hne).1, (hprops.2.2.1 hne).2.1,
           (hprops.2.2.1 hne).2.2⟩, hprops.2.2.2⟩

theorem session_state_set_once_witness :
    (call_publish_post cfgRemote worldUp idsConst loadsNone (fun _ => "{}")
        (fun _ _ _ _ _ _ => .obj []) stInit "mastodon" "t" "u" none none none).2.1
      = stInit :=
  ((session_state_set_once cfgRemote worldUp idsConst loadsNone (fun _ => "{}")
      (fun _ _ _ _ _ _ => .obj []) (fun _ _ _ _ _ => .obj []) stInit "mastodon" "t" "u"
      "m" none none none none (Or.inr rfl)).1).1 rfl

/-- Claim C6: on an initialized session, when the `tools/call` response is
a successful JSON body with no `error` member and a truthy `result`, the
text-typed entries of `result.content` drive the return value: no text
parts yields the empty mapping; otherwise the first text part is parsed as
JSON, a parse failure returning `{error: raw, status: "failure"}` instead
of raising, and a parse success returning the parsed value. -/
theorem tool_result_text_handling (cfg : Config) (world : Nat → HttpResponse)
    (genId : Nat → String) (jsonLoads : String → Option Json) (st : ClientState)
    (name : String) (args : Json) (data res : Json) (copt : Option Json)
    (items : List Json) (texts : List String)
    (hb : baseTruthy cfg = true) (hinit : st.remote_initialized = true)
    (hsucc : (world 0).is_success = true) (hbody : (world 0).body = .ok data)
    (herr : pyIn "error" data = .ok false)
    (hres : pyDictGet "result" data = .ok (some res)) (hnf : jfalsy res = false)
    (hcont : pyDictGet "content" res = .ok copt) (harr : orEmptyArr copt = .arr items)
    (htp : textParts items = .ok texts) :
    (texts = [] →
       (_call_remote_tool cfg world genId jsonLoads st name args).1 = .ok (.obj [])) ∧
    (∀ raw rest, texts = raw :: rest →
       (jsonLoads raw = none →
          (_call_remote_tool cfg world genId jsonLoads st name args).1 =
            .ok (.obj [("error", .str raw), ("status", .str "failure")])) ∧
       (∀ v, jsonLoads raw = some v →
          (_call_remote_tool cfg world genId jsonLoads st name args).1 = .ok v)) := by
  have hcall : (_call_remote_tool cfg world genId jsonLoads st name args).1 =
      handleToolResponse jsonLoads (world 0) := by
    rw [call_remote_tool_eq cfg world genId jsonLoads st name args hb,
        handshakeStep_skip world genId hinit]
    rfl
  rw [hcall]
  constructor
  · intro ht
    subst ht
    simp [handleToolResponse, hsucc, hbody, herr, hres, hnf, hcont, harr, htp]
  · intro raw rest ht
    subst ht
    constructor
    · intro hj
      simp [handleToolResponse, hsucc, hbody, herr, hres, hnf, hcont, harr, htp, hj]
    · intro v hj
      simp [handleToolResponse, hsucc, hbody, herr, hres, hnf, hcont, harr, htp, hj]

theorem tool_result_text_handling_witness :
    (_call_remote_tool cfgRemote worldNotJson idsConst loadsNone stInit
        "publish_post_tool" (.obj [])).1 =
      .ok (.obj [("error", .str "not json"), ("status", .str "failure")]) :=
  ((tool_result_text_handling cfgRemote worldNotJson idsConst loadsNone stInit
      "publish_post_tool" (.obj [])
      (.obj [("result", .obj [("content", .arr [.obj [("text", .str "not json")]])])])
      (.obj [("content", .arr [.obj [("text", .str "not json")]])])
      (some (.arr [.obj [("text", .str "not json")]]))
      [.obj [("text", .str "not json")]] ["not json"]
      (by decide) rfl rfl rfl rfl rfl rfl rfl rfl rfl).2 "not json" [] rfl).1 rfl

/-- Claim C10: for every invocation of `call_publish_post` or
`call_upload_media`, the `RuntimeError("mcp_publish_url not set")` branch
inside `_call_remote_tool` is unreachable: the remote branch is only taken
after the caller has observed a truthy `_mcp_base_url`, which is a
deterministic function of the configuration, so the result is never that
error. -/
theorem url_not_set_unreachable (cfg : Config) (world : Nat → HttpResponse)
    (genId : Nat → String) (jsonLoads : String → Option Json) (jsonDumps : Json → String)
    (ppImpl : String → String → String → Option Int → Option String → Json → Json)
    (umImpl : String → String → String → Option Int → Option String → Json)
    (st : ClientState) (platform text user_id media_base64 : String)
    (connection_id : Option Int) (media_id : Option String) (metadata : Option Json)
    (image_url : Option String) :
    (call_publish_post cfg world genId jsonLoads jsonDumps ppImpl st platform text
        user_id connection_id media_id metadata).1 ≠ .error .urlNotSet ∧
    (call_upload_media cfg world genId jsonLoads umImpl st platform media_base64
        user_id connection_id image_url).1 ≠ .error .urlNotSet := by
  cases hm : _mcp_base_url cfg with
  | error e =>
    have he := mcp_base_url_error_eq hm
    subst he
    constructor <;> simp [call_publish_post, call_upload_media, hm]
  | ok b =>
    cases ht : truthyS b
    · constructor <;> simp [call_publish_post, call_upload_media, hm, ht]
    · have hb : baseTruthy cfg = true := by
        unfold baseTruthy
        rw [hm]
        exact ht
      constructor
      · simp only [call_publish_post, hm, ht, if_true]
        exact call_remote_tool_ne_urlNotSet cfg world genId jsonLoads st
          "publish_post_tool" _ hb
      · simp only [call_upload_media, hm, ht, if_true]
        exact call_remote_tool_ne_urlNotSet cfg world genId jsonLoads st
          "upload_media_tool" _ hb

end AgentS
